import Mathlib

/-!
Verification of the peridynamics model construction code
(src/peridynamics/model.py) against its natural-language specification.

Floating-point numbers are idealised as rationals: every float64 literal is
embedded as the exact rational value it denotes in the source text, and the
constant np.pi is embedded as the exact rational value of the IEEE-754 double
that numpy stores for it.  Python integers are embedded as Nat, numpy arrays
as lists, and code paths that raise exceptions return Except values.
-/

set_option maxHeartbeats 1000000

namespace Peridynamics

/-- Kinds of Python exception that the embedded code paths can raise. -/
inductive PyErr where
  | valueError
  | typeError
  | attributeError
  | assertionError
  deriving DecidableEq

/-- The exact rational value of the IEEE-754 double constant np.pi,
which is 884279719003555 * 2 ^ (-48). -/
def np_pi : ℚ := 884279719003555 / 281474976710656

/-- The model fields consumed by Model._set_stiffness_corrections: the
dimensionality (model.py line 239), horizon radius (line 251), node count
(line 488), per-node volume array (lines 283-297) and per-node initial
family counts (lines 301-314). -/
structure ModelGeom where
  dimensions : Nat
  horizon : ℚ
  nnodes : Nat
  volume : List ℚ
  family : List Nat

/-- model.py lines 658-664: family_volumes[i] is the sum of the volumes of
the first family[i] entries of row i of the neighbour list. -/
def family_volumes (m : ModelGeom) (nlist : List (List Nat)) : List ℚ :=
  (List.range m.nnodes).map fun i =>
    (((nlist.getD i []).take (m.family.getD i 0)).map
      fun j => m.volume.getD j 0).sum

/-- model.py lines 666-669: the bulk family volume the corrections are
compared against.  In 2 dimensions the code computes
np.pi * horizon ** 2 * 0.001 (note the extra literal 0.001); in 3 dimensions
it computes (4/3) * np.pi * horizon ** 3. -/
def family_volume_bulk (m : ModelGeom) : ℚ :=
  if m.dimensions = 2 then np_pi * m.horizon ^ 2 * (1 / 1000)
  else (4 / 3) * np_pi * m.horizon ^ 3

/-- Modelled from the spec sentence on stiffness corrections: the theoretical
2D bulk family volume is stated there as pi * horizon ^ 2, with no further
factor. -/
def spec_bulk_family_volume_2d (horizon : ℚ) : ℚ := np_pi * horizon ^ 2

/-- model.py lines 671-679, the precise_stiffness_correction == 1 branch:
every slot (i, k) with k < n_neigh[i] is overwritten with
2 * family_volume_bulk / (family_volumes[i] + family_volumes[nlist[i][k]]);
all other slots keep the initial value 1 from np.ones (line 657). -/
def precise_stiffness_corrections (m : ModelGeom) (nlist : List (List Nat))
    (n_neigh : List Nat) (max_neighbours : Nat) : List (List ℚ) :=
  let fv := family_volumes m nlist
  (List.range m.nnodes).map fun i =>
    (List.range max_neighbours).map fun k =>
      if k < n_neigh.getD i 0 then
        2 * family_volume_bulk m /
          (fv.getD i 0 + fv.getD ((nlist.getD i []).getD k 0) 0)
      else 1

/-- Embedding of Model._set_stiffness_corrections (model.py lines 625-706).
The array starts as np.ones((nnodes, max_neighbours)).  Mode 1 (precise) fills
the valid slots with the correction factors.  Mode 0 (approximate) executes
`average_node_volume = self.volume_total / self.nnodes` (line 682) as its
first statement, but Model.__init__ never sets an attribute named
volume_total (it stores sum_total_volume, line 285), so CPython raises
AttributeError before any factor is computed; the loop on line 686 would in
any case iterate over the integer n_neigh[i], another TypeError.  Mode None
leaves the array of ones untouched (line 695-696).  Any other mode raises
ValueError (lines 697-700). -/
def set_stiffness_corrections (m : ModelGeom) (nlist : List (List Nat))
    (n_neigh : List Nat) (max_neighbours : Nat)
    (precise_stiffness_correction : Option Nat) :
    Except PyErr (List (List ℚ)) :=
  match precise_stiffness_correction with
  | some 1 =>
      Except.ok (precise_stiffness_corrections m nlist n_neigh max_neighbours)
  | some 0 => Except.error PyErr.attributeError
  | none =>
      Except.ok (List.replicate m.nnodes (List.replicate max_neighbours (1 : ℚ)))
  | some _ => Except.error PyErr.valueError

/-- Embedding of Model._set_plus_cs (model.py lines 708-745).  For
nregimes = 1 the loop body never runs and the function returns the single
intercept [0] (lines 732-734).  For nregimes >= 2 the first loop iteration
executes the statement `plus_cs.append[c_i]` (line 741), which subscripts the
bound method list.append instead of calling it, so CPython raises TypeError
before any intercept is stored.  For nregimes = 0 the loop runs zero times
and the assertion len(plus_cs) == nregimes (line 743) fails. -/
def set_plus_cs (bond_stiffness critical_stretch : List ℚ)
    (nregimes : Nat) : Except PyErr (List ℚ) :=
  if nregimes = 1 then Except.ok [0]
  else if nregimes = 0 then Except.error PyErr.assertionError
  else Except.error PyErr.typeError

/-- A concrete two-node geometry used to evaluate the embedded construction
code: 2D, horizon 1, two nodes of volume 1, each the sole family member of
the other. -/
def two_node_geom : ModelGeom :=
  { dimensions := 2, horizon := 1, nnodes := 2, volume := [1, 1],
    family := [1, 1] }

/-- The stages Model.__init__ (model.py lines 109-473) runs through, in
source order: read the mesh (line 249), compute or validate the volume array
(lines 283-297), compute or validate the family array (lines 301-314), build
the neighbour list (lines 318-398), set stiffness corrections (lines
401-419), set material types (lines 426-441), resolve boundary conditions
(lines 460-466) and build the integrator (lines 469-473). -/
inductive Stage where
  | readMesh
  | volumeCalc
  | familyCalc
  | neighbourListBuild
  | stiffnessCorrectionSetup
  | materialTypeSetup
  | boundaryConditionSetup
  | integratorBuild
  deriving DecidableEq

/-- The payload of FamilyError (model.py lines 1180-1199): np.where picks,
in ascending order, the indices whose family count is 0, and the message
joins exactly those indices. -/
def zero_family_indices (family : List Nat) : List Nat :=
  (List.range family.length).filter fun i => family.getD i 1 == 0

/-- Control-flow embedding of Model.__init__ around the family check: after
the mesh is read and the volume and family arrays are in place, line 315
tests np.any(self.family == 0) and line 316 raises
FamilyError(self.family); only when no family count is zero does execution
continue to the neighbour-list, stiffness-correction, material-type and
boundary-condition setup and the integrator build.  The result pairs the
list of stages that executed with the FamilyError payload, if raised. -/
def model_init_trace (family : List Nat) : List Stage × Option (List Nat) :=
  let earlyStages := [Stage.readMesh, Stage.volumeCalc, Stage.familyCalc]
  if family.any fun x => x == 0 then
    (earlyStages, some (zero_family_indices family))
  else
    (earlyStages ++ [Stage.neighbourListBuild, Stage.stiffnessCorrectionSetup,
      Stage.materialTypeSetup, Stage.boundaryConditionSetup,
      Stage.integratorBuild], none)

/-- model.py lines 361-363: with an OpenCL context and no supplied
connectivity, max_neighbours = 1 << (int(family.max() - 1)).bit_length().
Nat.size is exactly the bit_length of a Python non-negative int. -/
def max_neighbours_cl (family_max : Nat) : Nat :=
  1 <<< Nat.size (family_max - 1)

/-- model.py lines 374-384: for a supplied connectivity tuple,
max_neighbours is the size of axis 1 of nlist and the code raises ValueError
when max_neighbours & (max_neighbours - 1) is nonzero. -/
def connectivity_width_check (max_neighbours : Nat) : Except PyErr Nat :=
  if max_neighbours &&& (max_neighbours - 1) ≠ 0 then
    Except.error PyErr.valueError
  else Except.ok max_neighbours

/-- Modelled from the spec words: a number is a power of two. -/
def spec_is_power_of_two (n : Nat) : Prop := ∃ k, n = 2 ^ k

/-- model.py line 399: the fixed number of degrees of freedom per node. -/
def degrees_freedom : Nat := 3

/-- The dense arrays produced by Model._set_boundary_conditions
(model.py lines 801-840). -/
structure BCResult where
  bc_types : List (List Nat)
  bc_values : List (List ℚ)
  force_bc_types : List (List Nat)
  force_bc_values : List (List ℚ)
  tip_types : List (List Nat)
  num_force_bc_nodes : Nat
  deriving DecidableEq

/-- model.py lines 811-834, variable num_force_bc_nodes: the count of nodes
for which is_forces_boundary reports a non-None value on at least one axis
(is_force_node is set to 1 as soon as any axis is non-None). -/
def num_force_bc_nodes (nnodes : Nat)
    (forces_bnd : Nat → Nat → Option ℚ) : Nat :=
  ((List.range nnodes).filter fun i =>
    (List.range degrees_freedom).any fun j => (forces_bnd i j).isSome).length

/-- Embedding of Model._set_boundary_conditions (model.py lines 747-840).
The caller-supplied predicate functions are given precomposed with the node
coordinates, i.e. as functions of the node index and the axis.  For a
force-loaded axis the stored value is forces_bnd_j / volume[i] (line 829);
after the node loop, when num_force_bc_nodes is nonzero, every entry of
force_bc_values is divided by num_force_bc_nodes (lines 835-837). -/
def set_boundary_conditions (nnodes : Nat) (volume : List ℚ)
    (bnd forces_bnd tip : Nat → Nat → Option ℚ) : BCResult :=
  let nfb := num_force_bc_nodes nnodes forces_bnd
  let raw_force_values : List (List ℚ) :=
    (List.range nnodes).map fun i =>
      (List.range degrees_freedom).map fun j =>
        match forces_bnd i j with
        | some f => f / volume.getD i 0
        | none => 0
  { bc_types := (List.range nnodes).map fun i =>
      (List.range degrees_freedom).map fun j =>
        if (bnd i j).isSome then 1 else 0
    bc_values := (List.range nnodes).map fun i =>
      (List.range degrees_freedom).map fun j => (bnd i j).getD 0
    force_bc_types := (List.range nnodes).map fun i =>
      (List.range degrees_freedom).map fun j =>
        if (forces_bnd i j).isSome then 1 else 0
    force_bc_values :=
      if nfb ≠ 0 then
        raw_force_values.map fun row => row.map fun v => v / (nfb : ℚ)
      else raw_force_values
    tip_types := (List.range nnodes).map fun i =>
      (List.range degrees_freedom).map fun j =>
        if (tip i j).isSome then 1 else 0
    num_force_bc_nodes := nfb }

/-- model.py lines 944-950: the (node, axis) slots counted by the variable
tmp, i.e. those with tip_types[i][j] == 1, in loop order. -/
def tip_slots (nnodes : Nat) (tip_types : List (List Nat)) :
    List (Nat × Nat) :=
  (List.range nnodes).flatMap fun i =>
    (List.range degrees_freedom).filterMap fun j =>
      if (tip_types.getD i []).getD j 0 = 1 then some (i, j) else none

/-- Embedding of the write-step snapshot block of Model.simulate
(model.py lines 940-960).  tip_displacement, tip_velocity and tip_force all
start as the number 0; the tip slots are accumulated; when tmp is nonzero
the displacement and velocity are divided by tmp, otherwise lines 955-956
replace the displacement and the velocity by None — but tip_force is left
as the number it accumulated (0 when there are no tip slots) and is recorded
as a number in every case.  none embeds the Python value None and some x a
Python number x. -/
def tip_data (nnodes : Nat) (tip_types : List (List Nat))
    (u ud force : List (List ℚ)) : Option ℚ × Option ℚ × Option ℚ :=
  let slots := tip_slots nnodes tip_types
  let tmp : Nat := slots.length
  let tip_displacement := (slots.map fun p => (u.getD p.1 []).getD p.2 0).sum
  let tip_velocity := (slots.map fun p => (ud.getD p.1 []).getD p.2 0).sum
  let tip_force := (slots.map fun p => (force.getD p.1 []).getD p.2 0).sum
  if tmp ≠ 0 then
    (some (tip_displacement / (tmp : ℚ)), some (tip_velocity / (tmp : ℚ)),
      some tip_force)
  else (none, none, some tip_force)

/-- The first n_neigh[a] entries of row a of the neighbour list: the
neighbour slots the setup loops iterate over. -/
def active_row (nlist : List (List Nat)) (n_neigh : List Nat) (a : Nat) :
    List Nat :=
  (nlist.getD a []).take (n_neigh.getD a 0)

/-- The (i, j) node-index pairs of all directed bonds, in the iteration
order of the setup loops: i over range(nnodes), then j over
nlist[i][0:n_neigh[i]]. -/
def directed_bond_pairs (nnodes : Nat) (nlist : List (List Nat))
    (n_neigh : List Nat) : List (Nat × Nat) :=
  (List.range nnodes).flatMap fun i =>
    (active_row nlist n_neigh i).map fun j => (i, j)

/-- model.py lines 612-619: Model._set_material_types calls
bond_type(coords[i], coords[j]) once for every directed bond (i, j), i.e.
for every i in range(nnodes) and every neighbour slot of i.  This is the
list of node-index argument pairs of those calls, in call order. -/
def material_type_calls (nnodes : Nat) (nlist : List (List Nat))
    (n_neigh : List Nat) : List (Nat × Nat) :=
  directed_bond_pairs nnodes nlist n_neigh

/-- model.py lines 1144-1156: the pair list built by initial_crack_helper,
pairs = [(i, j) for i in range(nnodes) for j in nlist[i][0:n_neigh[i]] if
i < j], with nnodes = nlist.shape[0]; crack_function is then called once per
element of this list. -/
def crack_helper_pairs (nlist : List (List Nat)) (n_neigh : List Nat) :
    List (Nat × Nat) :=
  (directed_bond_pairs nlist.length nlist n_neigh).filter fun p => p.1 < p.2

/-- The Python types relevant to the bond_stiffness dispatch in
Model.__init__. -/
inductive PyType where
  | list
  | ndarray
  | float
  deriving DecidableEq

/-- Python truthiness of a class object: class objects are always truthy. -/
def py_type_truthy (_ : PyType) : Bool := true

/-- The Python expression `a or b`: it evaluates to a when a is truthy. -/
def py_or (a b : PyType) : PyType := if py_type_truthy a then a else b

/-- The parenthesised expression `(list or np.ndarray)` from model.py line
252: since the class object list is truthy, it evaluates to list. -/
def list_or_ndarray : PyType := py_or PyType.list PyType.ndarray

/-- Embedding of model.py lines 252-274: the dispatch on
type(bond_stiffness).  The test on line 252 is
`type(bond_stiffness) is (list or np.ndarray)`; in the branch it selects,
mismatched shapes raise ValueError (lines 253-258), shape (1,) gives
nregimes = nmaterials = 1 (lines 260-262) and otherwise nregimes =
shape[1], nmaterials = shape[0] (lines 264-265); the other branch (lines
270-274) sets nregimes = nmaterials = 1.  The result is (nregimes,
nmaterials) or the raised error. -/
def stiffness_shape_dispatch (bsType : PyType) (bsShape csShape : List Nat) :
    Except PyErr (Nat × Nat) :=
  if bsType = list_or_ndarray then
    if bsShape ≠ csShape then Except.error PyErr.valueError
    else if bsShape = [1] then Except.ok (1, 1)
    else Except.ok (bsShape.getD 1 0, bsShape.getD 0 0)
  else Except.ok (1, 1)

/-- The two damage warnings of Model.simulate (model.py lines 963-968). -/
inductive DamageWarning where
  | overFivePercent
  | overSevenPercent
  deriving DecidableEq

/-- Embedding of model.py lines 963-968: the if/elif on the damage sum at a
write step, which warns (non-fatally, the loop continues) when the damage
sum exceeds 0.05 * nnodes, and in the elif branch when it exceeds
0.7 * nnodes. -/
def damage_warning (damage_sum : ℚ) (nnodes : Nat) : Option DamageWarning :=
  if damage_sum > 5 / 100 * (nnodes : ℚ) then some DamageWarning.overFivePercent
  else if damage_sum > 7 / 10 * (nnodes : ℚ) then
    some DamageWarning.overSevenPercent
  else none

/-- C1, counterexample: in the two-node 2D model with horizon 1 and unit
volumes, the stored stiffness-correction factor of bond slot (0, 0) is
np_pi / 1000 and not the claimed
2 * (pi * horizon ^ 2) / (family_volume(0) + family_volume(1)) = np_pi,
because the code multiplies the 2D bulk family volume by the literal 0.001
(model.py line 667). -/
theorem stiffness_correction_2d_bulk_counterexample :
    ¬ (((precise_stiffness_corrections two_node_geom [[1], [0]] [1, 1] 1).getD
          0 []).getD 0 0 =
        2 * spec_bulk_family_volume_2d two_node_geom.horizon /
          ((family_volumes two_node_geom [[1], [0]]).getD 0 0 +
            (family_volumes two_node_geom [[1], [0]]).getD 1 0)) := by
  have h1 : family_volumes two_node_geom [[1], [0]] = [1, 1] := by
    simp [family_volumes, two_node_geom, List.range_succ]
  have h2 : precise_stiffness_corrections two_node_geom [[1], [0]] [1, 1] 1 =
      [[np_pi * (1 / 1000)], [np_pi * (1 / 1000)]] := by
    simp only [precise_stiffness_corrections, h1, family_volume_bulk,
      show two_node_geom.nnodes = 2 from rfl,
      show two_node_geom.dimensions = 2 from rfl,
      show two_node_geom.horizon = 1 from rfl, List.range_succ,
      List.range_zero]
    norm_num
  rw [h1, h2]
  simp [spec_bulk_family_volume_2d, show two_node_geom.horizon = 1 from rfl,
    np_pi]
  norm_num

/-- C1, amended: for every 2D model in precise mode (precise_stiffness
correction = 1), the stored factor for each valid bond slot (i, k) with
k < n_neigh[i] equals 2 * (pi * horizon ^ 2 * 0.001) /
(family_volume(i) + family_volume(nlist[i][k])) — the spec formula with the
2D bulk family volume multiplied by the hard-coded literal 0.001 — and
_set_stiffness_corrections returns exactly this array in precise mode. -/
theorem stiffness_correction_precise_2d (m : ModelGeom)
    (nlist : List (List Nat)) (n_neigh : List Nat) (max_neighbours : Nat)
    (i k : Nat) (hdim : m.dimensions = 2) (hi : i < m.nnodes)
    (hk : k < n_neigh.getD i 0) (hkm : k < max_neighbours) :
    ((precise_stiffness_corrections m nlist n_neigh max_neighbours).getD
        i []).getD k 0 =
      2 * (spec_bulk_family_volume_2d m.horizon * (1 / 1000)) /
        ((family_volumes m nlist).getD i 0 +
          (family_volumes m nlist).getD ((nlist.getD i []).getD k 0) 0) ∧
    set_stiffness_corrections m nlist n_neigh max_neighbours (some 1) =
      Except.ok (precise_stiffness_corrections m nlist n_neigh max_neighbours)
    := by
  refine ⟨?_, rfl⟩
  simp only [List.getD_eq_getElem?_getD] at hk ⊢
  simp [precise_stiffness_corrections, spec_bulk_family_volume_2d,
    family_volume_bulk, hdim, List.getD_eq_getElem?_getD,
    List.getElem?_map, List.getElem?_range, hi, hkm, hk]

/-- Witness for the amended C1 at the two-node model, slot (0, 0). -/
theorem stiffness_correction_precise_2d_witness :
    (two_node_geom.dimensions = 2 ∧ 0 < two_node_geom.nnodes ∧
      0 < ([1, 1] : List Nat).getD 0 0 ∧ 0 < 1) ∧
    (((precise_stiffness_corrections two_node_geom [[1], [0]] [1, 1] 1).getD
          0 []).getD 0 0 =
        2 * (spec_bulk_family_volume_2d two_node_geom.horizon * (1 / 1000)) /
          ((family_volumes two_node_geom [[1], [0]]).getD 0 0 +
            (family_volumes two_node_geom [[1], [0]]).getD
              ((([[1], [0]] : List (List Nat)).getD 0 []).getD 0 0) 0) ∧
      set_stiffness_corrections two_node_geom [[1], [0]] [1, 1] 1 (some 1) =
        Except.ok
          (precise_stiffness_corrections two_node_geom [[1], [0]] [1, 1] 1)) :=
  ⟨⟨rfl, by decide, by decide, by decide⟩,
    stiffness_correction_precise_2d two_node_geom [[1], [0]] [1, 1] 1 0 0
      rfl (by decide) (by decide) (by decide)⟩

/-- C2: evaluating _set_plus_cs at a two-regime configuration
(bond_stiffness [1, 1/2], critical_stretch [1/100, 1/50], nregimes = 2)
raises TypeError: the statement plus_cs.append[c_i] on model.py line 741
subscripts the bound method list.append instead of calling it, so no
intercept array is ever produced for nregimes >= 2. -/
theorem plus_cs_crashes_on_two_regimes :
    set_plus_cs [1, 1 / 2] [1 / 100, 1 / 50] 2 =
      Except.error PyErr.typeError := rfl

/-- C5: evaluating _set_stiffness_corrections in approximate mode
(precise_stiffness_correction = 0) on the two-node model raises
AttributeError: line 682 reads self.volume_total, an attribute
Model.__init__ never sets (it stores sum_total_volume), so no correction
factor is ever produced in approximate mode. -/
theorem approximate_stiffness_mode_crashes :
    set_stiffness_corrections two_node_geom [[1], [0]] [1, 1] 1 (some 0) =
      Except.error PyErr.attributeError := rfl

/-- C7, counterexample: at a write step with no tip slot (tip_types all
zero), the recorded triple is (None, None, 0): the tip-averaged displacement
and velocity are the non-numeric marker None, but the tip-summed reaction
force is recorded as the number 0, not as a non-numeric marker, refuting the
claim that all three are reported as no data. -/
theorem tip_force_zero_counterexample :
    tip_data 1 [[0, 0, 0]] [[5, 6, 7]] [[1, 2, 3]] [[4, 8, 9]] =
      (none, none, some 0) ∧
    (tip_data 1 [[0, 0, 0]] [[5, 6, 7]] [[1, 2, 3]] [[4, 8, 9]]).2.2 ≠
      none := by
  have h : tip_data 1 [[0, 0, 0]] [[5, 6, 7]] [[1, 2, 3]] [[4, 8, 9]] =
      (none, none, some 0) := rfl
  exact ⟨h, by rw [h]; simp⟩

/-- C7, amended: at a write step where no (node, axis) entry of tip_types
equals 1, the recorded tip-averaged displacement and tip-averaged velocity
are the non-numeric marker None, while the tip-summed reaction force is
recorded as the number 0. -/
theorem tip_data_no_tip (nnodes : Nat) (tip_types : List (List Nat))
    (u ud force : List (List ℚ))
    (h : ∀ i < nnodes, ∀ j < degrees_freedom,
      (tip_types.getD i []).getD j 0 ≠ 1) :
    tip_data nnodes tip_types u ud force = (none, none, some 0) := by
  have hs : tip_slots nnodes tip_types = [] := by
    unfold tip_slots
    rw [List.flatMap_eq_nil_iff]
    intro i hi
    rw [List.filterMap_eq_nil_iff]
    intro j hj
    rw [if_neg (h i (List.mem_range.mp hi) j (List.mem_range.mp hj))]
  unfold tip_data
  rw [hs]
  simp

/-- Witness for the amended C7 at a one-node model with no tip slots. -/
theorem tip_data_no_tip_witness :
    (∀ i < 1, ∀ j < degrees_freedom,
      (([[0, 0, 0]] : List (List Nat)).getD i []).getD j 0 ≠ 1) ∧
    tip_data 1 [[0, 0, 0]] [[5, 6, 7]] [[1, 2, 3]] [[4, 8, 9]] =
      (none, none, some 0) :=
  ⟨by decide,
    tip_data_no_tip 1 [[0, 0, 0]] [[5, 6, 7]] [[1, 2, 3]] [[4, 8, 9]]
      (by decide)⟩

/-- C9: because the Python expression (list or np.ndarray) evaluates to the
class list, the test type(bond_stiffness) is (list or np.ndarray) is false
for every numpy array, so the dispatch takes the scalar branch: nregimes and
nmaterials are both 1 whatever the shapes are, and the shape-mismatch
ValueError is never raised for numpy-array inputs. -/
theorem ndarray_selects_scalar_branch (bsShape csShape : List Nat) :
    stiffness_shape_dispatch PyType.ndarray bsShape csShape =
      Except.ok (1, 1) := rfl

/-- C10: for a model with a positive node count, the elif branch warning
that over 7% of bonds have broken is unreachable: any damage sum exceeding
0.7 * nnodes also exceeds 0.05 * nnodes and is consumed by the first
branch, so at most the first warning is emitted. -/
theorem seven_percent_warning_unreachable (damage_sum : ℚ) (nnodes : Nat)
    (h : 0 < nnodes) :
    damage_warning damage_sum nnodes ≠ some DamageWarning.overSevenPercent
    := by
  unfold damage_warning
  split
  · simp
  · next h1 =>
    split
    · next h2 =>
      exfalso
      have hn : (0 : ℚ) ≤ (nnodes : ℚ) := by positivity
      push_neg at h1
      linarith
    · simp

/-- Witness for C10 at damage_sum 1, nnodes 1. -/
theorem seven_percent_warning_unreachable_witness :
    0 < 1 ∧
    damage_warning 1 1 ≠ some DamageWarning.overSevenPercent :=
  ⟨by decide, seven_percent_warning_unreachable 1 1 (by decide)⟩

/-- C3: when some node has an initial family count of 0, Model.__init__
raises FamilyError directly after the family array is in place — the trace
contains none of the neighbour-list, stiffness-correction, material-type or
boundary-condition stages — and the error payload enumerates exactly the
indices of the nodes whose family count is 0. -/
theorem family_error_before_setup (family : List Nat)
    (h : ∃ i < family.length, family.getD i 1 = 0) :
    (model_init_trace family).2 = some (zero_family_indices family) ∧
    (∀ i, i ∈ zero_family_indices family ↔
      i < family.length ∧ family.getD i 1 = 0) ∧
    Stage.neighbourListBuild ∉ (model_init_trace family).1 ∧
    Stage.stiffnessCorrectionSetup ∉ (model_init_trace family).1 ∧
    Stage.materialTypeSetup ∉ (model_init_trace family).1 ∧
    Stage.boundaryConditionSetup ∉ (model_init_trace family).1 := by
  obtain ⟨i, hi, hzero⟩ := h
  have hmem : (0 : Nat) ∈ family := by
    have h1 : family.getD i 1 = family[i] := List.getD_eq_getElem family 1 hi
    rw [h1] at hzero
    exact hzero ▸ List.getElem_mem hi
  have hany : (family.any fun x => x == 0) = true := by
    rw [List.any_eq_true]
    exact ⟨0, hmem, by simp⟩
  refine ⟨?_, ?_, ?_, ?_, ?_, ?_⟩ <;>
    simp [model_init_trace, hany, zero_family_indices, List.mem_filter,
      List.mem_range]

/-- Witness for C3 at the family array [1, 0]. -/
theorem family_error_before_setup_witness :
    (∃ i < ([1, 0] : List Nat).length, ([1, 0] : List Nat).getD i 1 = 0) ∧
    ((model_init_trace [1, 0]).2 = some (zero_family_indices [1, 0]) ∧
      (∀ i, i ∈ zero_family_indices [1, 0] ↔
        i < ([1, 0] : List Nat).length ∧ ([1, 0] : List Nat).getD i 1 = 0) ∧
      Stage.neighbourListBuild ∉ (model_init_trace [1, 0]).1 ∧
      Stage.stiffnessCorrectionSetup ∉ (model_init_trace [1, 0]).1 ∧
      Stage.materialTypeSetup ∉ (model_init_trace [1, 0]).1 ∧
      Stage.boundaryConditionSetup ∉ (model_init_trace [1, 0]).1) :=
  ⟨⟨1, by decide, by decide⟩,
    family_error_before_setup [1, 0] ⟨1, by decide, by decide⟩⟩

/-- C6: when at least one node is reported force-loaded on some axis, the
resolved force boundary value at node i on a loaded axis j equals the
caller-returned magnitude divided by the volume of node i and further
divided by the count of nodes having any non-None force-boundary axis. -/
theorem force_bc_normalisation (nnodes : Nat) (volume : List ℚ)
    (bnd forces_bnd tip : Nat → Nat → Option ℚ) (i j : Nat) (f : ℚ)
    (hi : i < nnodes) (hj : j < degrees_freedom)
    (hf : forces_bnd i j = some f)
    (hloaded : ∃ a < nnodes, ∃ b < degrees_freedom,
      (forces_bnd a b).isSome = true) :
    (((set_boundary_conditions nnodes volume bnd forces_bnd
          tip).force_bc_values).getD i []).getD j 0 =
      f / volume.getD i 0 / (num_force_bc_nodes nnodes forces_bnd : ℚ) := by
  obtain ⟨a, ha, b, hb, hab⟩ := hloaded
  have hnfb : num_force_bc_nodes nnodes forces_bnd ≠ 0 := by
    unfold num_force_bc_nodes
    have hmem : a ∈ (List.range nnodes).filter
        (fun x => (List.range degrees_freedom).any
          fun y => (forces_bnd x y).isSome) := by
      rw [List.mem_filter]
      refine ⟨List.mem_range.mpr ha, ?_⟩
      rw [List.any_eq_true]
      exact ⟨b, List.mem_range.mpr hb, hab⟩
    intro hlen
    rw [List.length_eq_zero] at hlen
    rw [hlen] at hmem
    exact absurd hmem (List.not_mem_nil a)
  simp only [set_boundary_conditions, if_pos hnfb,
    List.getD_eq_getElem?_getD, List.getElem?_map, List.getElem?_range]
  simp [List.getElem?_range, hi, hj, hf, List.getD_eq_getElem?_getD]

/-- Witness for C6: one node of volume 2, force-loaded with magnitude 6 on
axis 0; the resolved value is 6 / 2 / 1. -/
theorem force_bc_normalisation_witness :
    ((0 : Nat) < 1 ∧ (0 : Nat) < degrees_freedom ∧
      (fun a b => if a = 0 ∧ b = 0 then some (6 : ℚ) else none) 0 0 =
        some 6 ∧
      (∃ a < 1, ∃ b < degrees_freedom,
        ((fun a b => if a = 0 ∧ b = 0 then some (6 : ℚ) else none) a
            b).isSome = true)) ∧
    (((set_boundary_conditions 1 [2] (fun _ _ => none)
          (fun a b => if a = 0 ∧ b = 0 then some (6 : ℚ) else none)
          (fun _ _ => none)).force_bc_values).getD 0 []).getD 0 0 =
      6 / ([2] : List ℚ).getD 0 0 /
        (num_force_bc_nodes 1
          (fun a b => if a = 0 ∧ b = 0 then some (6 : ℚ) else none) : ℚ) :=
  ⟨⟨by decide, by decide, rfl, ⟨0, by decide, 0, by decide, rfl⟩⟩,
    force_bc_normalisation 1 [2] (fun _ _ => none)
      (fun a b => if a = 0 ∧ b = 0 then some (6 : ℚ) else none)
      (fun _ _ => none) 0 0 6 (by decide) (by decide) rfl
      ⟨0, by decide, 0, by decide, rfl⟩⟩

/-- countP distributes over flatMap as the sum of the per-block counts. -/
theorem countP_flatMap_eq_sum {α β : Type} (p : β → Bool) (f : α → List β)
    (l : List α) :
    (l.flatMap f).countP p = (l.map fun a => (f a).countP p).sum := by
  induction l with
  | nil => rfl
  | cons a l ih => simp [List.flatMap_cons, ih]

/-- A sum over range n of a function that vanishes below n is 0. -/
theorem sum_map_range_zero (f : Nat → Nat) :
    ∀ n, (∀ a, a < n → f a = 0) → ((List.range n).map f).sum = 0 := by
  intro n
  induction n with
  | zero => intro _; rfl
  | succ n ih =>
    intro hf
    rw [List.range_succ, List.map_append, List.sum_append]
    rw [ih (fun a ha => hf a (by omega))]
    simp [hf n (by omega)]

/-- A sum over range n of a function supported on one point below n. -/
theorem sum_map_range_single (f : Nat → Nat) :
    ∀ n i, i < n → (∀ a, a < n → a ≠ i → f a = 0) →
      ((List.range n).map f).sum = f i := by
  intro n
  induction n with
  | zero => intro i hi; omega
  | succ n ih =>
    intro i hi hf
    rw [List.range_succ, List.map_append, List.sum_append]
    by_cases hin : i = n
    · rw [sum_map_range_zero f n (fun a ha => hf a (by omega) (by omega))]
      simp [hin]
    · rw [ih i (by omega) (fun a ha hne => hf a (by omega) hne)]
      simp [hf n (by omega) (by omega)]

/-- A sum over range n of a function supported on two points below n. -/
theorem sum_map_range_double (f : Nat → Nat) :
    ∀ n i j, i < j → j < n → (∀ a, a < n → a ≠ i → a ≠ j → f a = 0) →
      ((List.range n).map f).sum = f i + f j := by
  intro n
  induction n with
  | zero => intro i j hij hj; omega
  | succ n ih =>
    intro i j hij hj hf
    rw [List.range_succ, List.map_append, List.sum_append]
    by_cases hjn : j = n
    · rw [sum_map_range_single f n i (by omega)
        (fun a ha hne => hf a (by omega) hne (by omega))]
      simp [hjn]
    · rw [ih i j hij (by omega) (fun a ha h1 h2 => hf a (by omega) h1 h2)]
      simp [hf n (by omega) (by omega) (by omega)]

/-- C8, counterexample: in the two-node model whose symmetric neighbour
list is [[1], [0]], _set_material_types calls bond_type twice on the single
bonded pair (0, 1) — once per directed bond, as (0, 1) and as (1, 0) — not
exactly once as claimed. -/
theorem bond_type_called_twice_counterexample :
    (material_type_calls 2 [[1], [0]] [1, 1]).countP
        (fun p => decide (p = (0, 1) ∨ p = (1, 0))) = 2 ∧
    ¬ ((material_type_calls 2 [[1], [0]] [1, 1]).countP
        (fun p => decide (p = (0, 1) ∨ p = (1, 0))) = 1) := by
  constructor
  · decide
  · decide

/-- C8, amended: for a symmetric, duplicate-free connectivity, bond_type is
invoked exactly once per directed bond — hence exactly twice per symmetric
bonded pair (i, j) — while the initial-crack pair predicate is invoked
exactly once per bonded pair (the comprehension keeps only i < j); both are
invoked during setup only. -/
theorem bond_type_and_crack_call_counts (nnodes : Nat)
    (nlist : List (List Nat)) (n_neigh : List Nat) (i j : Nat)
    (hlen : nlist.length = nnodes) (hi : i < nnodes) (hj : j < nnodes)
    (hij : i < j)
    (di : (active_row nlist n_neigh i).Nodup)
    (dj : (active_row nlist n_neigh j).Nodup)
    (hbond : j ∈ active_row nlist n_neigh i)
    (hsym : i ∈ active_row nlist n_neigh j) :
    (material_type_calls nnodes nlist n_neigh).countP
        (fun p => decide (p = (i, j) ∨ p = (j, i))) = 2 ∧
    (crack_helper_pairs nlist n_neigh).countP
        (fun p => decide (p = (i, j))) = 1 := by
  constructor
  · unfold material_type_calls directed_bond_pairs
    rw [countP_flatMap_eq_sum]
    have hfun : ∀ a, ((active_row nlist n_neigh a).map
        (fun x => (a, x))).countP
          (fun p => decide (p = (i, j) ∨ p = (j, i))) =
        (active_row nlist n_neigh a).countP
          (fun x => decide ((a, x) = (i, j) ∨ (a, x) = (j, i))) := by
      intro a
      rw [List.countP_map]
      rfl
    have hblock_i : (active_row nlist n_neigh i).countP
        (fun x => decide ((i, x) = (i, j) ∨ (i, x) = (j, i))) = 1 := by
      have hp : (fun x => decide ((i, x) = (i, j) ∨ (i, x) = (j, i))) =
          (fun x : Nat => x == j) := by
        funext x
        rcases eq_or_ne x j with hx | hx
        · subst hx
          simp
        · have h1 : ¬ ((i, x) = (i, j) ∨ (i, x) = (j, i)) := by
            rintro (h2 | h2) <;>
              simp only [Prod.mk.injEq] at h2 <;> omega
          rw [decide_eq_false h1]
          exact (beq_eq_false_iff_ne.mpr hx).symm
      rw [hp]
      exact List.count_eq_one_of_mem di hbond
    have hblock_j : (active_row nlist n_neigh j).countP
        (fun x => decide ((j, x) = (i, j) ∨ (j, x) = (j, i))) = 1 := by
      have hp : (fun x => decide ((j, x) = (i, j) ∨ (j, x) = (j, i))) =
          (fun x : Nat => x == i) := by
        funext x
        rcases eq_or_ne x i with hx | hx
        · subst hx
          simp [Prod.ext_iff]
        · have h1 : ¬ ((j, x) = (i, j) ∨ (j, x) = (j, i)) := by
            rintro (h2 | h2) <;>
              simp only [Prod.mk.injEq] at h2 <;> omega
          rw [decide_eq_false h1]
          exact (beq_eq_false_iff_ne.mpr hx).symm
      rw [hp]
      exact List.count_eq_one_of_mem dj hsym
    have hblock_other : ∀ a, a < nnodes → a ≠ i → a ≠ j →
        (active_row nlist n_neigh a).countP
          (fun x => decide ((a, x) = (i, j) ∨ (a, x) = (j, i))) = 0 := by
      intro a ha hai haj
      rw [List.countP_eq_zero]
      intro x hx
      simp only [decide_eq_true_eq]
      rintro (h2 | h2) <;> simp only [Prod.mk.injEq] at h2 <;> omega
    have hsum := sum_map_range_double
      (fun a => (active_row nlist n_neigh a).countP
        (fun x => decide ((a, x) = (i, j) ∨ (a, x) = (j, i))))
      nnodes i j hij hj hblock_other
    simp only [hfun]
    rw [hsum]
    simp only [hblock_i, hblock_j]
  · unfold crack_helper_pairs directed_bond_pairs
    rw [List.countP_filter, countP_flatMap_eq_sum]
    have hfun : ∀ a, ((active_row nlist n_neigh a).map
        (fun x => (a, x))).countP
          (fun p => decide (p = (i, j)) && decide (p.1 < p.2)) =
        (active_row nlist n_neigh a).countP
          (fun x => decide ((a, x) = (i, j)) && decide (a < x)) := by
      intro a
      rw [List.countP_map]
      rfl
    have hblock_i : (active_row nlist n_neigh i).countP
        (fun x => decide ((i, x) = (i, j)) && decide (i < x)) = 1 := by
      have hp : (fun x => decide ((i, x) = (i, j)) && decide (i < x)) =
          (fun x : Nat => x == j) := by
        funext x
        rcases eq_or_ne x j with hx | hx
        · subst hx
          simp [hij]
        · have h1 : ¬ ((i, x) = (i, j)) := by
            simp only [Prod.mk.injEq]
            rintro ⟨_, h2⟩
            exact hx h2
          rw [decide_eq_false h1, Bool.false_and]
          exact (beq_eq_false_iff_ne.mpr hx).symm
      rw [hp]
      exact List.count_eq_one_of_mem di hbond
    have hblock_other : ∀ a, a < nnodes → a ≠ i →
        (active_row nlist n_neigh a).countP
          (fun x => decide ((a, x) = (i, j)) && decide (a < x)) = 0 := by
      intro a ha hai
      rw [List.countP_eq_zero]
      intro x hx
      simp only [Bool.and_eq_true, decide_eq_true_eq, Prod.mk.injEq]
      rintro ⟨⟨h2, _⟩, _⟩
      exact hai h2
    have hsum := sum_map_range_single
      (fun a => (active_row nlist n_neigh a).countP
        (fun x => decide ((a, x) = (i, j)) && decide (a < x)))
      nlist.length i (hlen ▸ hi)
      (fun a ha hne => hblock_other a (hlen ▸ ha) hne)
    simp only [hfun]
    rw [hsum]
    simp only [hblock_i]

/-- Witness for the amended C8 at the symmetric two-node connectivity. -/
theorem bond_type_and_crack_call_counts_witness :
    (([[1], [0]] : List (List Nat)).length = 2 ∧ 0 < 2 ∧ 1 < 2 ∧ 0 < 1 ∧
      (active_row [[1], [0]] [1, 1] 0).Nodup ∧
      (active_row [[1], [0]] [1, 1] 1).Nodup ∧
      1 ∈ active_row [[1], [0]] [1, 1] 0 ∧
      0 ∈ active_row [[1], [0]] [1, 1] 1) ∧
    ((material_type_calls 2 [[1], [0]] [1, 1]).countP
        (fun p => decide (p = (0, 1) ∨ p = (1, 0))) = 2 ∧
      (crack_helper_pairs [[1], [0]] [1, 1]).countP
        (fun p => decide (p = (0, 1))) = 1) :=
  ⟨⟨by decide, by decide, by decide, by decide, by decide, by decide,
      by decide, by decide⟩,
    bond_type_and_crack_call_counts 2 [[1], [0]] [1, 1] 0 1 (by decide)
      (by decide) (by decide) (by decide) (by decide) (by decide)
      (by decide) (by decide)⟩

/-- For a positive width, max_neighbours & (max_neighbours - 1) vanishes
exactly on the powers of two. -/
theorem land_pred_eq_zero_iff {w : Nat} (hw : 1 ≤ w) :
    w &&& (w - 1) = 0 ↔ spec_is_power_of_two w := by
  constructor
  · intro h
    have hub : w < 2 ^ Nat.size w := Nat.lt_size_self w
    have hs1 : 1 ≤ Nat.size w := Nat.size_pos.mpr hw
    set t := Nat.size w - 1 with ht
    have hlb : 2 ^ t ≤ w := by
      by_contra hlt
      push_neg at hlt
      have h2 : Nat.size w ≤ t := Nat.size_le.mpr hlt
      omega
    refine ⟨t, ?_⟩
    by_contra hne
    have hgt : 2 ^ t < w := lt_of_le_of_ne hlb (Ne.symm hne)
    have hub2 : w < 2 ^ t + 2 ^ t := by
      have hsw : Nat.size w = t + 1 := by omega
      rw [hsw, pow_succ] at hub
      omega
    have hw_eq : w = 2 ^ t + (w - 2 ^ t) := by omega
    have hrlt : w - 2 ^ t < 2 ^ t := by omega
    have htb_w : Nat.testBit w t = true := by
      rw [hw_eq, Nat.testBit_two_pow_add_eq, Nat.testBit_lt_two_pow hrlt]
      rfl
    have hw1_eq : w - 1 = 2 ^ t + (w - 2 ^ t - 1) := by omega
    have hr1lt : w - 2 ^ t - 1 < 2 ^ t := by omega
    have htb_w1 : Nat.testBit (w - 1) t = true := by
      rw [hw1_eq, Nat.testBit_two_pow_add_eq, Nat.testBit_lt_two_pow hr1lt]
      rfl
    have hand : Nat.testBit (w &&& (w - 1)) t = true := by
      rw [Nat.testBit_and, htb_w, htb_w1]
      rfl
    rw [h, Nat.zero_testBit] at hand
    exact Bool.false_ne_true hand
  · rintro ⟨k, rfl⟩
    apply Nat.eq_of_testBit_eq
    intro i
    rw [Nat.testBit_and, Nat.zero_testBit, Nat.testBit_two_pow,
      Nat.testBit_two_pow_sub_one]
    rcases eq_or_ne k i with hki | hki <;> simp [hki]

/-- C4, counterexample: a supplied neighbour-list width of 0 is not a power
of two, yet the check max_neighbours & (max_neighbours - 1) accepts it
without raising, so construction does not raise for every non-power-of-two
width. -/
theorem width_zero_passes_check_counterexample :
    connectivity_width_check 0 = Except.ok 0 ∧ ¬ spec_is_power_of_two 0 := by
  refine ⟨rfl, ?_⟩
  rintro ⟨k, hk⟩
  have hpos : 0 < 2 ^ k := pow_pos (by omega) k
  omega

/-- C4, amended: with no connectivity supplied, the wide-parallel backend
sets max_neighbours to the smallest power of two that is at least the
maximum family size; and for every supplied connectivity whose
neighbour-list width is positive and not a power of two, construction
raises ValueError (a width of 0, not a power of two, slips through the
check, see the counterexample). -/
theorem max_neighbours_power_of_two (fm w : Nat) (hfm : 1 ≤ fm)
    (hw : 1 ≤ w) :
    (spec_is_power_of_two (max_neighbours_cl fm) ∧
      fm ≤ max_neighbours_cl fm ∧
      (∀ k, fm ≤ 2 ^ k → max_neighbours_cl fm ≤ 2 ^ k)) ∧
    (connectivity_width_check w = Except.error PyErr.valueError ↔
      ¬ spec_is_power_of_two w) := by
  have heq : max_neighbours_cl fm = 2 ^ Nat.size (fm - 1) := by
    rw [max_neighbours_cl, Nat.shiftLeft_eq, one_mul]
  refine ⟨⟨⟨Nat.size (fm - 1), heq⟩, ?_, ?_⟩, ?_⟩
  · rw [heq]
    have := Nat.lt_size_self (fm - 1)
    omega
  · intro k hk
    rw [heq]
    have hlt : fm - 1 < 2 ^ k := by omega
    exact Nat.pow_le_pow_right (by omega) (Nat.size_le.mpr hlt)
  · have hiff := land_pred_eq_zero_iff hw
    unfold connectivity_width_check
    by_cases hz : w &&& (w - 1) = 0
    · rw [if_neg (fun hc => hc hz)]
      constructor
      · intro hcontra
        exact Except.noConfusion hcontra
      · intro hnp
        exact absurd (hiff.mp hz) hnp
    · rw [if_pos hz]
      constructor
      · intro _ hp
        exact hz (hiff.mpr hp)
      · intro _
        rfl

/-- Witness for the amended C4 at maximum family size 5 and width 6. -/
theorem max_neighbours_power_of_two_witness :
    (1 ≤ 5 ∧ 1 ≤ 6) ∧
    ((spec_is_power_of_two (max_neighbours_cl 5) ∧
      5 ≤ max_neighbours_cl 5 ∧
      (∀ k, 5 ≤ 2 ^ k → max_neighbours_cl 5 ≤ 2 ^ k)) ∧
     (connectivity_width_check 6 = Except.error PyErr.valueError ↔
      ¬ spec_is_power_of_two 6)) :=
  ⟨⟨by decide, by decide⟩,
    max_neighbours_power_of_two 5 6 (by decide) (by decide)⟩

end Peridynamics
